import Mathlib

/-!
Verification development for the `dom_orch` pipeline orchestrator
(`dom_orch/tasks.py`, `dom_orch/pipeline.py`).

The Python classes are shallowly embedded as Lean structures; remote
Platform Client interactions are modelled by passing the platform's
responses as explicit arguments (an `Except String α` models a remote
call that may raise, `.error e` being the raised exception).  A Python
method that can raise an uncaught exception is embedded as a function
returning `Except String σ`; a method whose `try/except` absorbs every
exception is embedded as a total function.
-/

/-- Internal task states of `DominoTask` (`tasks.py` lines 36-39):
`STAT_UNSUBMITTED = "Unsubmitted"`, `STAT_SUCCEEDED = "Succeeded"`,
`STAT_INPROGRESS = "In-progress"`, `STAT_FAILED = "Failed"`. -/
inductive TStatus where
  | unsubmitted
  | succeeded
  | inprogress
  | failed
deriving DecidableEq, Repr

/-- Embedding of Python's `str.lower()` as applied to the platform's
ASCII status vocabulary: lowercase every character (kernel-computable,
unlike `String.toLower`). -/
def py_lower (s : String) : String :=
  String.mk (s.data.map Char.toLower)

/-- Batch-run task `DominoRun` (`tasks.py` lines 218-300).  Fields mirror
the attributes set in `DominoRun.__init__` plus the inherited `_status`. -/
structure DominoRun where
  task_id : String
  command : List String
  isDirect : Bool
  max_retries : Nat
  tier : Option String
  title : Option String
  run_id : Option String
  retries : Nat
  _status : TStatus
deriving DecidableEq, Repr

/-- Constructor `DominoRun.__init__` (`tasks.py` lines 246-257): the task
starts `Unsubmitted` with `run_id = None` and `retries = 0`. -/
def DominoRun.init (task_id : String) (command : List String)
    (isDirect : Bool) (max_retries : Nat) (tier : Option String)
    (title : Option String) : DominoRun :=
  { task_id := task_id, command := command, isDirect := isDirect
    max_retries := max_retries, tier := tier, title := title
    run_id := none, retries := 0, _status := TStatus.unsubmitted }

/-- Method `DominoRun.submit` (`tasks.py` lines 276-300).  The remote call
`runs_start` and the subsequent `response_json["runId"]` lookup are
modelled by `resp : Except String (Option String)`: `.error e` is a raised
platform exception, `.ok none` a response without a `"runId"` key (the
`KeyError` is raised inside the `try` block), `.ok (some rid)` a normal
response.  The `try/except Exception` absorbs every failure into the
`Failed` state, so the embedding is a total function; note that the
`except` branch sets `_status` only — `retries` is NOT incremented. -/
def DominoRun.submit (t : DominoRun) (resp : Except String (Option String)) :
    DominoRun :=
  match resp with
  | .ok (some rid) => { t with run_id := some rid, _status := TStatus.inprogress }
  | .ok none => { t with _status := TStatus.failed }
  | .error _ => { t with _status := TStatus.failed }

/-- Method `DominoRun.status` (`tasks.py` lines 259-274).  The remote call
`domino_api.runs_status(run_id)["status"].lower()` is modelled by
`poll : String → String` giving the platform's status string for a run id
(the `.lower()` is applied here as in the source).  The guard is the
truthiness of `run_id`, not the stored status.  An unrecognised status
string raises `RuntimeError` (`.error`).  Returns the updated task
together with the returned `self._status`. -/
def DominoRun.status (t : DominoRun) (poll : String → String) :
    Except String (DominoRun × TStatus) :=
  match t.run_id with
  | none => .ok (t, t._status)
  | some rid =>
    let api_status := py_lower (poll rid)
    if api_status = "succeeded" then
      .ok ({ t with _status := TStatus.succeeded }, TStatus.succeeded)
    else if api_status = "error" ∨ api_status = "failed" then
      .ok ({ t with _status := TStatus.failed }, TStatus.failed)
    else if api_status = "preparing" ∨ api_status = "running" ∨
        api_status = "pending" ∨ api_status = "finishing" then
      .ok ({ t with _status := TStatus.inprogress }, TStatus.inprogress)
    else
      .error ("Unknown DominoRun status:" ++ api_status)

/-- One hardware tier as returned by `hardware_tiers_list()`: the
`hardwareTier.name` and `hardwareTier.id` fields read by
`get_hardware_tier_id` (`helpers.py` lines 19-41). -/
structure HardwareTier where
  name : String
  id : String
deriving DecidableEq, Repr

/-- Helper `get_hardware_tier_id` (`helpers.py` lines 19-41).  When the
tier name is falsy (`None` or the empty string) no remote call is made and
`None` is returned; otherwise `hardware_tiers_list()` is consulted (its
possible exception propagates) and the id of the LAST tier whose name
matches case-insensitively is kept (`hw_tier_id` is overwritten on every
match), `None` when no tier matches. -/
def get_hardware_tier_id (tier_name : Option String)
    (tiers : Except String (List HardwareTier)) :
    Except String (Option String) :=
  match tier_name with
  | none => .ok none
  | some name =>
    if name = "" then .ok none
    else
      match tiers with
      | .error e => .error e
      | .ok l =>
        .ok (l.foldl
          (fun acc ht => if py_lower name = py_lower ht.name then some ht.id else acc)
          none)

/-- Scheduled-job task `DominoSchedRun` (`tasks.py` lines 87-215).  The
`command` field stores `command[0]` (the API expects a plain string);
`max_retries` and `retries` are the inherited defaults `0`. -/
structure DominoSchedRun where
  task_id : String
  command : Option String
  tier : Option String
  cron_string : String
  environment_id : Option String
  title : String
  max_retries : Nat
  retries : Nat
  _status : TStatus
deriving DecidableEq, Repr

/-- Constructor `DominoSchedRun.__init__` (`tasks.py` lines 127-142):
stores `command[0]` (`none` models the `IndexError` source on an empty
list only through absence) and falls back to `task_id` when no title is
given. -/
def DominoSchedRun.init (task_id : String) (command : List String)
    (cron_string : String) (title : Option String) (tier : Option String)
    (environment_id : Option String) : DominoSchedRun :=
  { task_id := task_id, command := command.head?, tier := tier
    cron_string := cron_string, environment_id := environment_id
    title := title.getD task_id, max_retries := 0, retries := 0
    _status := TStatus.unsubmitted }

/-- Platform responses consumed by `DominoSchedRun.submit`: the hardware
tier listing (used by `get_hardware_tier_id` before the `try` block), the
`get_user_id` lookup (also before the `try` block), and the scheduled-job
POST — `.ok none` models a response body without an `"id"` key (the
`KeyError` is raised inside the `try` block). -/
structure SchedApi where
  tiers : Except String (List HardwareTier)
  user_id : Except String String
  post_response : Except String (Option String)
deriving Repr

/-- Method `DominoSchedRun.submit` (`tasks.py` lines 159-215).  The tier
and user lookups happen BEFORE the `try` block, so their exceptions
propagate (`.error`); the POST and the `response_json["id"]` lookup are
inside `try ... except:` (a bare except), so any of their failures is
absorbed: success sets `Succeeded`, failure sets `Failed`. -/
def DominoSchedRun.submit (t : DominoSchedRun) (api : SchedApi) :
    Except String DominoSchedRun :=
  match get_hardware_tier_id t.tier api.tiers with
  | .error e => .error e
  | .ok _tier_id =>
    match api.user_id with
    | .error e => .error e
    | .ok _uid =>
      match api.post_response with
      | .ok (some _job_id) => .ok { t with _status := TStatus.succeeded }
      | .ok none => .ok { t with _status := TStatus.failed }
      | .error _ => .ok { t with _status := TStatus.failed }

/-- Method `DominoSchedRun.status` (`tasks.py` lines 155-157): the
registration is a blocking call, so the stored status is returned with no
remote interaction. -/
def DominoSchedRun.status (t : DominoSchedRun) : TStatus :=
  t._status

/-- Model-deployment task `DominoModel` (`tasks.py` lines 303-444).
`environment_id` is taken as already resolved (its fallback to the first
global environment is a constructor-time platform call outside the claims
considered here). -/
structure DominoModel where
  task_id : String
  file_name : String
  function_name : String
  model_name : String
  description : String
  model_id : Option String
  environment_id : String
  version_id : Option String
  max_retries : Nat
  retries : Nat
  _status : TStatus
deriving DecidableEq, Repr

/-- Constructor `DominoModel.__init__` (`tasks.py` lines 337-355) with the
environment id already resolved: `version_id = None`, status
`Unsubmitted`, inherited retry fields `0`. -/
def DominoModel.init (task_id file_name function_name model_name
    description : String) (model_id : Option String)
    (environment_id : String) : DominoModel :=
  { task_id := task_id, file_name := file_name
    function_name := function_name, model_name := model_name
    description := description, model_id := model_id
    environment_id := environment_id, version_id := none
    max_retries := 0, retries := 0, _status := TStatus.unsubmitted }

/-- Which remote publication call `DominoModel.submit` performed:
`model_publish` deploys a brand-new model, `model_version_publish` builds
a new version of the existing model identified by `model_id`. -/
inductive ModelCall where
  | model_publish
  | model_version_publish (model_id : String)
deriving DecidableEq, Repr

/-- Platform responses consumed by `DominoModel.submit` and
`DominoModel.get_versions`: `publish_response` carries
`response_json.get("data", {}).get("_id")` (`none` when the key chain is
missing), `versions_response` the `"_id"` fields of the version list
(most recent first, each possibly missing). -/
structure ModelApi where
  publish_response : Except String (Option String)
  version_publish_response : Except String Unit
  versions_response : Except String (List (Option String))
deriving Repr

/-- Method `DominoModel.get_versions` (`tasks.py` lines 396-408): asserts
`model_id is not None` (the `AssertionError` propagates), then performs
the versions GET. -/
def DominoModel.get_versions (t : DominoModel) (api : ModelApi) :
    Except String (List (Option String)) :=
  match t.model_id with
  | none => .error "AssertionError: Trying to get Model API versions but model_id is None."
  | some _ => api.versions_response

/-- Shared tail of `DominoModel.submit` (`tasks.py` lines 435-444): fetch
the versions (`versions[0]` raises `IndexError` on an empty list), store
`version_id`, set the status to `In-progress`.  Returns the performed
remote call alongside the new state. -/
def DominoModel.submit_tail (t : DominoModel) (api : ModelApi)
    (call : ModelCall) : Except String (DominoModel × ModelCall) :=
  match DominoModel.get_versions t api with
  | .error e => .error e
  | .ok [] => .error "IndexError: list index out of range"
  | .ok (v :: _) =>
    .ok ({ t with version_id := v, _status := TStatus.inprogress }, call)

/-- Method `DominoModel.submit` (`tasks.py` lines 410-444).  There is NO
`try/except`: every platform exception propagates to the caller
(`.error`).  With a truthy `model_id` a new version of that model is
published and `model_id` is left untouched; otherwise a brand-new model
is published and `model_id` is set from the response. -/
def DominoModel.submit (t : DominoModel) (api : ModelApi) :
    Except String (DominoModel × ModelCall) :=
  match t.model_id with
  | some mid =>
    (match api.version_publish_response with
     | .error e => .error e
     | .ok _ =>
       DominoModel.submit_tail t api (ModelCall.model_version_publish mid))
  | none =>
    match api.publish_response with
    | .error e => .error e
    | .ok data_id =>
      DominoModel.submit_tail { t with model_id := data_id } api
        ModelCall.model_publish

/-- Method `DominoModel.status` (`tasks.py` lines 357-377).  The guard is
`_status != STAT_UNSUBMITTED`; the ensuing assertion on `model_id` and the
URL concatenation with `version_id` (a `TypeError` when `None`) are
modelled as propagated errors.  The build-status poll
(`poll model_id version_id`, lowercased here as in the source) is mapped
`building → In-progress`, `complete → Succeeded`, anything else →
`In-progress`. -/
def DominoModel.status (t : DominoModel) (poll : String → String → String) :
    Except String (DominoModel × TStatus) :=
  if t._status = TStatus.unsubmitted then .ok (t, t._status)
  else
    match t.model_id with
    | none => .error "AssertionError: Task is marked as submitted but has no model_id?"
    | some mid =>
      match t.version_id with
      | none => .error "TypeError: can only concatenate str (not NoneType) to str"
      | some vid =>
        let api_status := py_lower (poll mid vid)
        let st :=
          if api_status = "building" then TStatus.inprogress
          else if api_status = "complete" then TStatus.succeeded
          else TStatus.inprogress
        .ok ({ t with _status := st }, st)

/-- App-deployment task `DominoApp` (`tasks.py` lines 447-586).  `app_id`
is absent until `submit` assigns it (`Option`). -/
structure DominoApp where
  task_id : String
  app_name : String
  tier : Option String
  app_id : Option String
  max_retries : Nat
  retries : Nat
  _status : TStatus
deriving DecidableEq, Repr

/-- Constructor `DominoApp.__init__` (`tasks.py` lines 474-480). -/
def DominoApp.init (task_id : String) (app_name : String)
    (tier : Option String) : DominoApp :=
  { task_id := task_id, app_name := app_name, tier := tier
    app_id := none, max_retries := 0, retries := 0
    _status := TStatus.unsubmitted }

/-- Platform responses consumed by `DominoApp.submit`:
`app_unpublish`, the app-create POST (`.ok none` models a response body
without an `"id"` key), the tier listing consulted by `_start_app`, and
the app-start POST. -/
structure AppApi where
  unpublish : Except String Unit
  create_response : Except String (Option String)
  tiers : Except String (List HardwareTier)
  start_response : Except String Unit
deriving Repr

/-- Method `DominoApp._create_app` (`tasks.py` lines 546-586): performs
the create POST and raises `RuntimeError` when the response has no `"id"`
key. -/
def DominoApp.create_app (t : DominoApp) (api : AppApi) :
    Except String String :=
  match api.create_response with
  | .error e => .error e
  | .ok none => .error ("Cannot create application. task_id " ++ t.task_id)
  | .ok (some app_id) => .ok app_id

/-- Method `DominoApp._start_app` (`tasks.py` lines 526-544): with a tier
set, resolves its id (raising `RuntimeError` when the lookup yields
`None`), then performs the start POST. -/
def DominoApp.start_app (t : DominoApp) (api : AppApi) :
    Except String Unit :=
  match t.tier with
  | none => api.start_response
  | some _ =>
    match get_hardware_tier_id t.tier api.tiers with
    | .error e => .error e
    | .ok none => .error "Hardware tier ID cannot be fetched. Misspelled tier name?"
    | .ok (some _) => api.start_response

/-- Method `DominoApp.submit` (`tasks.py` lines 502-524).  The whole
unpublish/create/start sequence sits inside `try ... except Exception`,
so every failure is absorbed into the `Failed` state and the method
always returns normally (a total function); note that `app_id` keeps the
value assigned before the failing step. -/
def DominoApp.submit (t : DominoApp) (api : AppApi) : DominoApp :=
  match api.unpublish with
  | .error _ => { t with _status := TStatus.failed }
  | .ok _ =>
    match DominoApp.create_app t api with
    | .error _ => { t with _status := TStatus.failed }
    | .ok app_id =>
      match DominoApp.start_app { t with app_id := some app_id } api with
      | .error _ => { t with app_id := some app_id, _status := TStatus.failed }
      | .ok _ => { t with app_id := some app_id, _status := TStatus.inprogress }

/-- One entry of `Dag.tasks` (`pipeline.py` lines 42-48) as the graph
observes it during a single evaluation pass: `statusNow` is the value the
task's `status()` method returns during that pass.  Under a fixed
platform snapshot `status()` is idempotent (see the idempotence part of
the C7 development), so the first loop of `update_tasks_states`, the
fresh `status()` calls made for dependency checks, and the `is_complete`
calls of `pipeline_status` all observe this same value; `retries` and
`max_retries` are the task's retry fields read by the graph. -/
structure DagTask where
  task_id : String
  statusNow : TStatus
  retries : Nat
  max_retries : Nat
deriving DecidableEq, Repr

/-- Dependency graph `Dag` (`pipeline.py` lines 22-50): the task dict
(keys unique, modelled as the `task_id` fields of the list entries), the
dependency dict (every task id the code looks up has an entry, so a total
function), and `allow_partial_failure`. -/
structure Dag where
  tasks : List DagTask
  dependency_graph : String → List String
  allow_partial_failure : Bool

/-- Dictionary lookup `self.tasks[dep]`: the first (unique) entry with
the given id, `none` modelling the `KeyError` on a missing id. -/
def Dag.lookup (g : Dag) (tid : String) : Option DagTask :=
  g.tasks.find? (fun t => t.task_id = tid)

/-- Loop body of `Dag.get_dependency_statuses` (`pipeline.py` lines
52-62) over an explicit dependency list: each dependency's `status()`
(its `statusNow`), `none` when some dependency id is missing from the
task dict (the `KeyError`). -/
def Dag.dep_statuses (g : Dag) : List String → Option (List TStatus)
  | [] => some []
  | d :: ds =>
    match g.lookup d, Dag.dep_statuses g ds with
    | some t, some rest => some (t.statusNow :: rest)
    | _, _ => none

/-- Method `Dag.get_dependency_statuses` (`pipeline.py` lines 52-62). -/
def Dag.get_dependency_statuses (g : Dag) (task_id : String) :
    Option (List TStatus) :=
  Dag.dep_statuses g (g.dependency_graph task_id)

/-- Method `Dag.are_task_dependencies_complete` (`pipeline.py` lines
64-85): `True` iff every dependency status is `Succeeded` (vacuously
`True` on an empty list, which the source special-cases to the same
effect). -/
def Dag.are_task_dependencies_complete (g : Dag) (task_id : String) :
    Option Bool :=
  (g.get_dependency_statuses task_id).map
    (fun l => l.all (fun s => s == TStatus.succeeded))

/-- Loop of `Dag.update_tasks_states` (`pipeline.py` lines 97-134) over
an explicit task list, accumulating `(failed_tasks, ready_tasks)` in
iteration order: a task joins `failed_tasks` when its status is `Failed`
with `retries >= max_retries`, and joins `ready_tasks` when its
dependencies are all complete and it is `Failed` with
`retries < max_retries` or `Unsubmitted`.  `none` models the `KeyError`
escaping when some task's dependency list names a missing id. -/
def Dag.update_go (g : Dag) : List DagTask → Option (List DagTask × List DagTask)
  | [] => some ([], [])
  | t :: ts =>
    match g.are_task_dependencies_complete t.task_id, Dag.update_go g ts with
    | some deps_complete, some (fs, rs) =>
      let fs' := if t.statusNow = TStatus.failed ∧ t.max_retries ≤ t.retries
        then t :: fs else fs
      let rs' := if deps_complete = true ∧
          ((t.statusNow = TStatus.failed ∧ t.retries < t.max_retries) ∨
            t.statusNow = TStatus.unsubmitted)
        then t :: rs else rs
      some (fs', rs')
    | _, _ => none

/-- Method `Dag.update_tasks_states` (`pipeline.py` lines 97-134):
rebuilds and returns `(failed_tasks, ready_tasks)` over all tasks. -/
def Dag.update_tasks_states (g : Dag) :
    Option (List DagTask × List DagTask) :=
  Dag.update_go g g.tasks

/-- Pipeline statuses `DAG_FAILED`, `DAG_RUNNING`, `DAG_SUCCEEDED`
(`pipeline.py` lines 38-40). -/
inductive DagStatus where
  | failed
  | running
  | succeeded
deriving DecidableEq, Repr

/-- Method `DominoTask.is_complete` (`tasks.py` lines 77-84) as the graph
observes it: `status() == Succeeded`. -/
def DagTask.is_complete (t : DagTask) : Bool :=
  t.statusNow == TStatus.succeeded

/-- Method `Dag.pipeline_status` (`pipeline.py` lines 136-153), reading
the `failed_tasks` list stored by the last `update_tasks_states`: first
the failure check (non-empty failed list and partial failure
disallowed), then the completeness check, else `Running`. -/
def Dag.pipeline_status (g : Dag) (failed_tasks : List DagTask) : DagStatus :=
  if failed_tasks.length > 0 ∧ g.allow_partial_failure = false then
    DagStatus.failed
  else if g.tasks.all (fun t => t.is_complete) then
    DagStatus.succeeded
  else
    DagStatus.running

/-- Outcome of one iteration of the `while True` loop of
`PipelineRunner.run` (`pipeline.py` lines 206-237): `break` on
`Succeeded`, a raised `RuntimeError` on `Failed`, otherwise the loop
submits every ready task (recorded by id) and sleeps. -/
inductive TickResult where
  | break_success
  | raise_runtime_error (msg : String)
  | submit_and_sleep (ready_ids : List String)
deriving DecidableEq, Repr

/-- Body of one iteration of `PipelineRunner.run` (`pipeline.py` lines
212-237): `update_tasks_states`, then `pipeline_status` on the freshly
computed failed list; on `Failed` the raised error is the fixed string
`"Pipeline Execution Failed"` (the per-task reporting loop at lines
221-222 is commented out in the source).  `none` models an exception
escaping from `update_tasks_states` itself. -/
def PipelineRunner.tick (g : Dag) : Option TickResult :=
  match Dag.update_tasks_states g with
  | none => none
  | some (fs, rs) =>
    match Dag.pipeline_status g fs with
    | DagStatus.succeeded => some TickResult.break_success
    | DagStatus.failed =>
      some (TickResult.raise_runtime_error "Pipeline Execution Failed")
    | DagStatus.running =>
      some (TickResult.submit_and_sleep (rs.map (fun t => t.task_id)))

/-- Forward half of the dependency-completeness characterisation: when
every id in `ds` resolves to a task whose status is `Succeeded`, the
status collection succeeds and the all-succeeded check is true. -/
theorem Dag.deps_complete_of (g : Dag) (ds : List String)
    (h : ∀ d ∈ ds, ∃ td, Dag.lookup g d = some td ∧
      td.statusNow = TStatus.succeeded) :
    (Dag.dep_statuses g ds).map
      (fun l => l.all (fun s => s == TStatus.succeeded)) = some true := by
  induction ds with
  | nil => simp [Dag.dep_statuses]
  | cons d ds ih =>
    obtain ⟨td, hl, hs⟩ := h d (by simp)
    have hrest := ih (fun d' hd' => h d' (List.mem_cons_of_mem _ hd'))
    cases hds : Dag.dep_statuses g ds with
    | none => rw [hds] at hrest; simp at hrest
    | some rest =>
      rw [hds] at hrest
      simp only [Option.map_some', Option.some.injEq] at hrest
      simp only [Dag.dep_statuses, hl, hds, Option.map_some',
        Option.some.injEq, List.all_cons, Bool.and_eq_true, beq_iff_eq]
      exact ⟨hs, hrest⟩

/-- Backward half of the dependency-completeness characterisation: when
the status collection succeeds with an all-succeeded result, every id in
`ds` resolves to a `Succeeded` task. -/
theorem Dag.of_deps_complete (g : Dag) (ds : List String)
    (h : (Dag.dep_statuses g ds).map
      (fun l => l.all (fun s => s == TStatus.succeeded)) = some true) :
    ∀ d ∈ ds, ∃ td, Dag.lookup g d = some td ∧
      td.statusNow = TStatus.succeeded := by
  induction ds with
  | nil => simp
  | cons d ds ih =>
    cases hl : Dag.lookup g d with
    | none => simp [Dag.dep_statuses, hl] at h
    | some td =>
      cases hds : Dag.dep_statuses g ds with
      | none => simp [Dag.dep_statuses, hl, hds] at h
      | some rest =>
        simp only [Dag.dep_statuses, hl, hds, Option.map_some',
          Option.some.injEq, List.all_cons, Bool.and_eq_true, beq_iff_eq] at h
        intro d' hd'
        rcases List.mem_cons.mp hd' with hd' | hd'
        · exact ⟨td, hd' ▸ hl, h.1⟩
        · exact ih (by rw [hds]; simp only [Option.map_some']; rw [h.2]) d' hd'

/-- Characterisation of `are_task_dependencies_complete` returning
`some true`: every dependency id resolves and is `Succeeded`. -/
theorem Dag.are_complete_iff (g : Dag) (tid : String) :
    Dag.are_task_dependencies_complete g tid = some true ↔
    ∀ d ∈ g.dependency_graph tid, ∃ td, Dag.lookup g d = some td ∧
      td.statusNow = TStatus.succeeded := by
  constructor
  · intro h
    exact Dag.of_deps_complete g _ h
  · intro h
    exact Dag.deps_complete_of g _ h

/-- Characterisation of the failed list built by the update pass: a task
is collected iff it is in the traversed list with status `Failed` and an
exhausted retry budget. -/
theorem Dag.update_go_failed_mem (g : Dag) :
    ∀ ts fs rs, Dag.update_go g ts = some (fs, rs) →
    ∀ x, x ∈ fs ↔ x ∈ ts ∧ x.statusNow = TStatus.failed ∧
      x.max_retries ≤ x.retries := by
  intro ts
  induction ts with
  | nil =>
    intro fs rs h x
    simp only [Dag.update_go, Option.some.injEq, Prod.mk.injEq] at h
    simp [← h.1]
  | cons t ts ih =>
    intro fs rs h x
    simp only [Dag.update_go] at h
    cases hdc : Dag.are_task_dependencies_complete g t.task_id with
    | none => rw [hdc] at h; simp at h
    | some dc =>
      rw [hdc] at h
      cases hgo : Dag.update_go g ts with
      | none => rw [hgo] at h; simp at h
      | some p =>
        obtain ⟨fs0, rs0⟩ := p
        rw [hgo] at h
        simp only [Option.some.injEq, Prod.mk.injEq] at h
        have hfs := h.1
        have ihx := ih fs0 rs0 hgo x
        by_cases hc : t.statusNow = TStatus.failed ∧ t.max_retries ≤ t.retries
        · rw [if_pos hc] at hfs
          rw [← hfs, List.mem_cons, List.mem_cons, ihx]
          constructor
          · rintro (rfl | ⟨hx, hp⟩)
            · exact ⟨Or.inl rfl, hc⟩
            · exact ⟨Or.inr hx, hp⟩
          · rintro ⟨rfl | hx, hp⟩
            · exact Or.inl rfl
            · exact Or.inr ⟨hx, hp⟩
        · rw [if_neg hc] at hfs
          rw [← hfs, ihx, List.mem_cons]
          constructor
          · rintro ⟨hx, hp⟩
            exact ⟨Or.inr hx, hp⟩
          · rintro ⟨rfl | hx, hp⟩
            · exact absurd hp hc
            · exact ⟨hx, hp⟩

/-- Characterisation of the ready list built by the update pass: a task
is collected iff it is in the traversed list, its dependency check
returned `True`, and it is retryable-`Failed` or `Unsubmitted`. -/
theorem Dag.update_go_ready_mem (g : Dag) :
    ∀ ts fs rs, Dag.update_go g ts = some (fs, rs) →
    ∀ x, x ∈ rs ↔ x ∈ ts ∧
      Dag.are_task_dependencies_complete g x.task_id = some true ∧
      ((x.statusNow = TStatus.failed ∧ x.retries < x.max_retries) ∨
        x.statusNow = TStatus.unsubmitted) := by
  intro ts
  induction ts with
  | nil =>
    intro fs rs h x
    simp only [Dag.update_go, Option.some.injEq, Prod.mk.injEq] at h
    simp [← h.2]
  | cons t ts ih =>
    intro fs rs h x
    simp only [Dag.update_go] at h
    cases hdc : Dag.are_task_dependencies_complete g t.task_id with
    | none => rw [hdc] at h; simp at h
    | some dc =>
      rw [hdc] at h
      cases hgo : Dag.update_go g ts with
      | none => rw [hgo] at h; simp at h
      | some p =>
        obtain ⟨fs0, rs0⟩ := p
        rw [hgo] at h
        simp only [Option.some.injEq, Prod.mk.injEq] at h
        have hrs := h.2
        have ihx := ih fs0 rs0 hgo x
        by_cases hc : dc = true ∧
            ((t.statusNow = TStatus.failed ∧ t.retries < t.max_retries) ∨
              t.statusNow = TStatus.unsubmitted)
        · rw [if_pos hc] at hrs
          rw [← hrs, List.mem_cons, List.mem_cons, ihx]
          constructor
          · rintro (rfl | ⟨hx, hp⟩)
            · exact ⟨Or.inl rfl, hc.1 ▸ hdc, hc.2⟩
            · exact ⟨Or.inr hx, hp⟩
          · rintro ⟨rfl | hx, hac, hp⟩
            · exact Or.inl rfl
            · exact Or.inr ⟨hx, hac, hp⟩
        · rw [if_neg hc] at hrs
          rw [← hrs, ihx, List.mem_cons]
          constructor
          · rintro ⟨hx, hp⟩
            exact ⟨Or.inr hx, hp⟩
          · rintro ⟨rfl | hx, hac, hp⟩
            · rw [hdc] at hac
              exact absurd ⟨Option.some.inj hac, hp⟩ hc
            · exact ⟨hx, hac, hp⟩

/-- C3: after one evaluation pass (`update_tasks_states` returning
without an exception), a task is in the ready set iff its status is
`Unsubmitted` or `Failed` with `retries < max_retries`, and every id in
its dependency list currently has status `Succeeded` (vacuously true for
an empty dependency list); in particular a task with an empty dependency
list and the initial `Unsubmitted` status is ready on the first
evaluation. -/
theorem c3_ready_set_iff (g : Dag) (fs rs : List DagTask)
    (h : Dag.update_tasks_states g = some (fs, rs)) (t : DagTask) :
    (t ∈ rs ↔ t ∈ g.tasks ∧
      (t.statusNow = TStatus.unsubmitted ∨
        (t.statusNow = TStatus.failed ∧ t.retries < t.max_retries)) ∧
      ∀ d ∈ g.dependency_graph t.task_id, ∃ td,
        Dag.lookup g d = some td ∧ td.statusNow = TStatus.succeeded) ∧
    (t ∈ g.tasks → g.dependency_graph t.task_id = [] →
      t.statusNow = TStatus.unsubmitted → t ∈ rs) := by
  have hmem := Dag.update_go_ready_mem g g.tasks fs rs h t
  constructor
  · rw [hmem, Dag.are_complete_iff]
    tauto
  · intro hin hdeps hstat
    apply hmem.mpr
    refine ⟨hin, ?_, Or.inr hstat⟩
    rw [Dag.are_complete_iff, hdeps]
    simp

/-- Witness for C3 on a concrete three-task graph: `A` (no deps,
unsubmitted) is ready on the first evaluation, and the ready set is
exactly `[A, B]` (`B` failed with retry budget left); `C` waits on `A`. -/
theorem c3_witness :
    Dag.update_tasks_states
      { tasks := [⟨"A", TStatus.unsubmitted, 0, 0⟩,
                  ⟨"B", TStatus.failed, 0, 2⟩,
                  ⟨"C", TStatus.unsubmitted, 0, 0⟩]
        dependency_graph := fun tid => if tid = "C" then ["A"] else []
        allow_partial_failure := false } =
      some ([], [⟨"A", TStatus.unsubmitted, 0, 0⟩,
                 ⟨"B", TStatus.failed, 0, 2⟩]) ∧
    (⟨"A", TStatus.unsubmitted, 0, 0⟩ : DagTask) ∈
      [(⟨"A", TStatus.unsubmitted, 0, 0⟩ : DagTask),
       ⟨"B", TStatus.failed, 0, 2⟩] :=
  ⟨by decide,
   (c3_ready_set_iff
      { tasks := [⟨"A", TStatus.unsubmitted, 0, 0⟩,
                  ⟨"B", TStatus.failed, 0, 2⟩,
                  ⟨"C", TStatus.unsubmitted, 0, 0⟩]
        dependency_graph := fun tid => if tid = "C" then ["A"] else []
        allow_partial_failure := false }
      [] [⟨"A", TStatus.unsubmitted, 0, 0⟩, ⟨"B", TStatus.failed, 0, 2⟩]
      (by decide) ⟨"A", TStatus.unsubmitted, 0, 0⟩).2
     (by decide) (by decide) rfl⟩

/-- C4: immediately after an evaluation pass, `pipeline_status` returns
`Failed` iff the freshly computed permanently-failed list — exactly the
tasks whose status is `Failed` with `retries >= max_retries` — is
non-empty and `allow_partial_failure` is false; the failure check is the
first branch, before the completeness check. -/
theorem c4_pipeline_failed_iff (g : Dag) (fs rs : List DagTask)
    (h : Dag.update_tasks_states g = some (fs, rs)) :
    (Dag.pipeline_status g fs = DagStatus.failed ↔
      fs ≠ [] ∧ g.allow_partial_failure = false) ∧
    (∀ t, t ∈ fs ↔ t ∈ g.tasks ∧ t.statusNow = TStatus.failed ∧
      t.max_retries ≤ t.retries) := by
  refine ⟨?_, Dag.update_go_failed_mem g g.tasks fs rs h⟩
  unfold Dag.pipeline_status
  by_cases hc : fs.length > 0 ∧ g.allow_partial_failure = false
  · rw [if_pos hc]
    constructor
    · intro _
      exact ⟨List.length_pos.mp hc.1, hc.2⟩
    · intro _
      rfl
  · rw [if_neg hc]
    constructor
    · intro hff
      by_cases hall : g.tasks.all (fun t => t.is_complete) = true
      · rw [if_pos hall] at hff
        cases hff
      · rw [if_neg hall] at hff
        cases hff
    · rintro ⟨hne, hapf⟩
      exact (hc ⟨List.length_pos.mpr hne, hapf⟩).elim

/-- Witness for C4 on a concrete graph: one permanently failed task and
`allow_partial_failure = false` makes the pipeline status `Failed`. -/
theorem c4_witness :
    Dag.pipeline_status
      { tasks := [⟨"A", TStatus.failed, 1, 1⟩,
                  ⟨"B", TStatus.succeeded, 0, 0⟩]
        dependency_graph := fun _ => []
        allow_partial_failure := false }
      [⟨"A", TStatus.failed, 1, 1⟩] = DagStatus.failed :=
  ((c4_pipeline_failed_iff
      { tasks := [⟨"A", TStatus.failed, 1, 1⟩,
                  ⟨"B", TStatus.succeeded, 0, 0⟩]
        dependency_graph := fun _ => []
        allow_partial_failure := false }
      [⟨"A", TStatus.failed, 1, 1⟩] []
      (by decide)).1).mpr ⟨by decide, rfl⟩

/-- C5: immediately after an evaluation pass, `pipeline_status` returns
`Succeeded` iff every task's `is_complete()` is true, i.e. every task's
observed status is `Succeeded`. -/
theorem c5_pipeline_succeeded_iff (g : Dag) (fs rs : List DagTask)
    (h : Dag.update_tasks_states g = some (fs, rs)) :
    Dag.pipeline_status g fs = DagStatus.succeeded ↔
      ∀ t ∈ g.tasks, t.is_complete = true := by
  have hfs := Dag.update_go_failed_mem g g.tasks fs rs h
  unfold Dag.pipeline_status
  constructor
  · intro hs
    by_cases hc : fs.length > 0 ∧ g.allow_partial_failure = false
    · rw [if_pos hc] at hs
      cases hs
    · rw [if_neg hc] at hs
      by_cases hall : g.tasks.all (fun t => t.is_complete) = true
      · exact List.all_eq_true.mp hall
      · rw [if_neg hall] at hs
        cases hs
  · intro hall
    have hfsnil : fs = [] := by
      by_contra hne
      obtain ⟨t, ht⟩ := List.exists_mem_of_ne_nil fs hne
      have hprop := (hfs t).mp ht
      have hic := hall t hprop.1
      rw [DagTask.is_complete, hprop.2.1] at hic
      cases hic
    rw [hfsnil]
    have hc : ¬((List.length ([] : List DagTask)) > 0 ∧
        g.allow_partial_failure = false) := by simp
    rw [if_neg hc, if_pos (List.all_eq_true.mpr hall)]

/-- Witness for C5 on a concrete graph whose two tasks are both
`Succeeded`: the pipeline status is `Succeeded`. -/
theorem c5_witness :
    Dag.pipeline_status
      { tasks := [⟨"A", TStatus.succeeded, 0, 0⟩,
                  ⟨"B", TStatus.succeeded, 0, 1⟩]
        dependency_graph := fun tid => if tid = "B" then ["A"] else []
        allow_partial_failure := false }
      [] = DagStatus.succeeded :=
  (c5_pipeline_succeeded_iff
      { tasks := [⟨"A", TStatus.succeeded, 0, 0⟩,
                  ⟨"B", TStatus.succeeded, 0, 1⟩]
        dependency_graph := fun tid => if tid = "B" then ["A"] else []
        allow_partial_failure := false }
      [] [] (by decide)).mpr (by decide)

/-- C8 (amended): when the scheduler's tick observes
`pipeline_status() == Failed`, the run loop stops by raising a
`RuntimeError`, but its message is the fixed string
`"Pipeline Execution Failed"` — the permanently-failed task ids are not
part of it (the per-task reporting loop is commented out in the
source). -/
theorem c8_failed_tick_raises_generic_error (g : Dag)
    (fs rs : List DagTask)
    (h : Dag.update_tasks_states g = some (fs, rs))
    (hf : Dag.pipeline_status g fs = DagStatus.failed) :
    PipelineRunner.tick g =
      some (TickResult.raise_runtime_error "Pipeline Execution Failed") := by
  unfold PipelineRunner.tick
  rw [h]
  simp only [hf]

/-- Counterexample for C8 as stated: on a graph whose only permanently
failed task is `task_42`, the tick raises the fixed message
`"Pipeline Execution Failed"`, and the failed task's id does not occur
in that message, so the terminal error does not name the
permanently-failed task ids. -/
theorem c8_counterexample_error_names_no_task :
    PipelineRunner.tick
      { tasks := [⟨"task_42", TStatus.failed, 0, 0⟩]
        dependency_graph := fun _ => []
        allow_partial_failure := false } =
      some (TickResult.raise_runtime_error "Pipeline Execution Failed") ∧
    ¬ ("task_42".toList <:+: "Pipeline Execution Failed".toList) :=
  ⟨by decide, by decide⟩

/-- Witness for C8 (amended) on a concrete two-task graph with one
permanently failed task. -/
theorem c8_witness :
    PipelineRunner.tick
      { tasks := [⟨"A", TStatus.failed, 3, 2⟩,
                  ⟨"B", TStatus.succeeded, 0, 0⟩]
        dependency_graph := fun _ => []
        allow_partial_failure := false } =
      some (TickResult.raise_runtime_error "Pipeline Execution Failed") :=
  c8_failed_tick_raises_generic_error
    { tasks := [⟨"A", TStatus.failed, 3, 2⟩,
                ⟨"B", TStatus.succeeded, 0, 0⟩]
      dependency_graph := fun _ => []
      allow_partial_failure := false }
    [⟨"A", TStatus.failed, 3, 2⟩] [] (by decide) (by decide)

/-- C1 (the code evaluated at the failing input): a batch run with
`max_retries = 2` whose first three submission attempts all fail ends
`Failed` with `retries` still `0` — the `except` branch of
`DominoRun.submit` never increments the retry counter, so
`retries < max_retries` still holds and the task never becomes
permanently failed, contradicting the claimed `n+1`-attempts bound. -/
theorem c1_retries_never_incremented :
    (let a3 := DominoRun.submit (DominoRun.submit (DominoRun.submit
        (DominoRun.init "A" ["hello.py"] false 2 none none)
        (.error "SubmissionError 1")) (.error "SubmissionError 2"))
      (.error "SubmissionError 3");
     a3._status = TStatus.failed ∧ a3.retries = 0 ∧
       a3.retries < a3.max_retries) := by
  decide

/-- Counterexample for C2 as stated: for a model-deployment task the
platform exception raised by `model_publish` propagates out of
`submit()` instead of being absorbed — `DominoModel.submit` has no
exception handler. -/
theorem c2_counterexample_model_submit_propagates :
    DominoModel.submit
      (DominoModel.init "model_1" "model.py" "return_hello" "Hello Model" ""
        none "env-1")
      { publish_response := .error "ConnectionError"
        version_publish_response := .ok ()
        versions_response := .ok [] } = .error "ConnectionError" := by
  rfl

/-- C2 (amended): batch-run and app-deployment `submit()` absorb every
platform failure into the `Failed` state and return normally (their
embedding is a total function); scheduled-run `submit()` absorbs the
registration call's failure, provided its tier and user lookups — made
before the `try` block — succeed; model-deployment `submit()` has no
handler and propagates platform errors (see the counterexample). -/
theorem c2_submit_error_absorption :
    (∀ (t : DominoRun) (e : String),
      DominoRun.submit t (.error e) = { t with _status := TStatus.failed }) ∧
    (∀ (t : DominoApp) (api : AppApi),
      (DominoApp.submit t api)._status = TStatus.inprogress ∨
      (DominoApp.submit t api)._status = TStatus.failed) ∧
    (∀ (t : DominoApp) (api : AppApi) (e : String),
      api.unpublish = .error e →
      DominoApp.submit t api = { t with _status := TStatus.failed }) ∧
    (∀ (t : DominoSchedRun) (api : SchedApi) (tid : Option String)
        (uid : String),
      get_hardware_tier_id t.tier api.tiers = .ok tid →
      api.user_id = .ok uid →
      ∃ t', DominoSchedRun.submit t api = .ok t' ∧
        (t'._status = TStatus.succeeded ∨ t'._status = TStatus.failed)) := by
  refine ⟨?_, ?_, ?_, ?_⟩
  · intro t e
    rfl
  · intro t api
    unfold DominoApp.submit
    split
    · exact Or.inr rfl
    · split
      · exact Or.inr rfl
      · split
        · exact Or.inr rfl
        · exact Or.inl rfl
  · intro t api e h1
    unfold DominoApp.submit
    rw [h1]
  · intro t api tid uid h1 h2
    unfold DominoSchedRun.submit
    rw [h1, h2]
    cases h3 : api.post_response with
    | error e => exact ⟨{ t with _status := TStatus.failed }, rfl, Or.inr rfl⟩
    | ok o =>
      cases o with
      | none => exact ⟨{ t with _status := TStatus.failed }, rfl, Or.inr rfl⟩
      | some j => exact ⟨{ t with _status := TStatus.succeeded }, rfl, Or.inl rfl⟩

/-- Witness for C2 (amended) at concrete inputs: a failing run
submission is absorbed into `Failed`; a failing app unpublish is
absorbed into `Failed`; a scheduled-run registration with successful
lookups returns normally. -/
theorem c2_witness :
    DominoRun.submit (DominoRun.init "job_1" ["hello.py"] false 0 none none)
        (.error "E") =
      { DominoRun.init "job_1" ["hello.py"] false 0 none none with
        _status := TStatus.failed } ∧
    DominoApp.submit (DominoApp.init "app_1" "TestApp1" none)
        { unpublish := .error "boom", create_response := .ok none
          tiers := .ok [], start_response := .ok () } =
      { DominoApp.init "app_1" "TestApp1" none with
        _status := TStatus.failed } ∧
    (∃ t', DominoSchedRun.submit
        (DominoSchedRun.init "sched_job_1" ["hello.py"] "0 0 * * *" none none
          none)
        { tiers := .ok [], user_id := .ok "u1"
          post_response := .ok (some "j1") } = .ok t' ∧
      (t'._status = TStatus.succeeded ∨ t'._status = TStatus.failed)) :=
  ⟨c2_submit_error_absorption.1
      (DominoRun.init "job_1" ["hello.py"] false 0 none none) "E",
   c2_submit_error_absorption.2.2.1 (DominoApp.init "app_1" "TestApp1" none)
      { unpublish := .error "boom", create_response := .ok none
        tiers := .ok [], start_response := .ok () } "boom" rfl,
   c2_submit_error_absorption.2.2.2
      (DominoSchedRun.init "sched_job_1" ["hello.py"] "0 0 * * *" none none
        none)
      { tiers := .ok [], user_id := .ok "u1"
        post_response := .ok (some "j1") } none "u1" rfl rfl⟩

/-- Counterexample for C6 as stated: for an in-progress batch run the
live status string `"building"` is NOT mapped to `In-progress` — it
falls into the unknown-status branch and raises `RuntimeError`. -/
theorem c6_counterexample_building_raises :
    DominoRun.status
      { task_id := "job_1", command := ["hello.py"], isDirect := false
        max_retries := 0, tier := none, title := none, run_id := some "r1"
        retries := 0, _status := TStatus.inprogress }
      (fun _ => "building") =
    .error "Unknown DominoRun status:building" := by
  rfl

/-- C6 (amended): for a submitted batch run, `status()` lowercases the
platform's live status string and maps `succeeded → Succeeded`,
`error|failed → Failed`, `preparing|running|pending|finishing →
In-progress`, and ANY other string — including `"building"` — to a
fatal `RuntimeError` that is not caught anywhere in the pipeline. -/
theorem c6_status_mapping (t : DominoRun) (poll : String → String)
    (rid : String) (h : t.run_id = some rid) :
    (py_lower (poll rid) = "succeeded" →
      DominoRun.status t poll =
        .ok ({ t with _status := TStatus.succeeded }, TStatus.succeeded)) ∧
    (py_lower (poll rid) = "error" ∨ py_lower (poll rid) = "failed" →
      DominoRun.status t poll =
        .ok ({ t with _status := TStatus.failed }, TStatus.failed)) ∧
    (py_lower (poll rid) = "preparing" ∨ py_lower (poll rid) = "running" ∨
        py_lower (poll rid) = "pending" ∨ py_lower (poll rid) = "finishing" →
      DominoRun.status t poll =
        .ok ({ t with _status := TStatus.inprogress }, TStatus.inprogress)) ∧
    (py_lower (poll rid) ≠ "succeeded" → py_lower (poll rid) ≠ "error" →
      py_lower (poll rid) ≠ "failed" → py_lower (poll rid) ≠ "preparing" →
      py_lower (poll rid) ≠ "running" → py_lower (poll rid) ≠ "pending" →
      py_lower (poll rid) ≠ "finishing" →
      DominoRun.status t poll =
        .error ("Unknown DominoRun status:" ++ py_lower (poll rid))) := by
  refine ⟨?_, ?_, ?_, ?_⟩
  · intro h1
    simp [DominoRun.status, h, h1]
  · rintro (h1 | h1) <;> simp [DominoRun.status, h, h1]
  · rintro (h1 | h1 | h1 | h1) <;> simp [DominoRun.status, h, h1]
  · intro h1 h2 h3 h4 h5 h6 h7
    simp [DominoRun.status, h, h1, h2, h3, h4, h5, h6, h7]

/-- Witness for C6 (amended): a concrete submitted run polled as
`"Succeeded"` (lowercased by the method) transitions to `Succeeded`. -/
theorem c6_witness :
    DominoRun.status
      { task_id := "job_1", command := ["hello.py"], isDirect := false
        max_retries := 0, tier := none, title := none, run_id := some "r1"
        retries := 0, _status := TStatus.inprogress }
      (fun _ => "Succeeded") =
    .ok ({ task_id := "job_1", command := ["hello.py"], isDirect := false
           max_retries := 0, tier := none, title := none, run_id := some "r1"
           retries := 0, _status := TStatus.succeeded },
         TStatus.succeeded) :=
  (c6_status_mapping
      { task_id := "job_1", command := ["hello.py"], isDirect := false
        max_retries := 0, tier := none, title := none, run_id := some "r1"
        retries := 0, _status := TStatus.inprogress }
      (fun _ => "Succeeded") "r1" rfl).1 (by decide)

/-- Counterexample for C7 as stated: a batch run already in `Succeeded`
(with its `run_id` recorded) is re-polled by `status()` — the guard is
`run_id`, not the stored status — and when the platform now reports
`"error"` the stored status CHANGES from `Succeeded` to `Failed`, so
`status()` neither skips the remote call nor leaves a `Succeeded` task
unchanged. -/
theorem c7_counterexample_succeeded_task_repolled :
    (let t : DominoRun :=
      { task_id := "job_1", command := ["hello.py"], isDirect := false
        max_retries := 0, tier := none, title := none, run_id := some "r1"
        retries := 0, _status := TStatus.succeeded };
     t._status = TStatus.succeeded ∧
     DominoRun.status t (fun _ => "error") =
       .ok ({ t with _status := TStatus.failed }, TStatus.failed)) :=
  ⟨rfl, rfl⟩

/-- C7 (amended): `status()` performs no remote call and returns the
stored status unchanged only while the task is unsubmitted (`run_id`
unset for batch runs; always for scheduled runs, whose `status()` is a
pure field read); once `run_id` is set, `status()` re-polls the platform
even in `Succeeded` or `Failed` states, and the stored status tracks the
platform's report (see the counterexample) — but under an unchanged
platform response repeated `status()` calls are idempotent: a second
call returns exactly the task and status of the first. -/
theorem c7_status_unchanged_only_when_unsubmitted :
    (∀ (t : DominoRun) (poll : String → String), t.run_id = none →
      DominoRun.status t poll = .ok (t, t._status)) ∧
    (∀ (t : DominoRun) (poll : String → String) (t' : DominoRun)
        (s : TStatus),
      DominoRun.status t poll = .ok (t', s) →
      DominoRun.status t' poll = .ok (t', s)) ∧
    (∀ (t : DominoSchedRun), DominoSchedRun.status t = t._status) := by
  refine ⟨?_, ?_, ?_⟩
  · intro t poll h
    simp [DominoRun.status, h]
  · intro t poll t' s hst
    cases hrun : t.run_id with
    | none =>
      simp only [DominoRun.status, hrun, Except.ok.injEq, Prod.mk.injEq] at hst
      obtain ⟨rfl, rfl⟩ := hst
      simp [DominoRun.status, hrun]
    | some rid =>
      simp only [DominoRun.status, hrun] at hst
      by_cases h1 : py_lower (poll rid) = "succeeded"
      · simp only [h1, if_pos, Except.ok.injEq, Prod.mk.injEq, if_true] at hst
        obtain ⟨rfl, rfl⟩ := hst
        simp [DominoRun.status, hrun, h1]
      · by_cases h2 : py_lower (poll rid) = "error" ∨
            py_lower (poll rid) = "failed"
        · simp only [h1, h2, if_false, if_true, Except.ok.injEq,
            Prod.mk.injEq, if_neg, if_pos] at hst
          obtain ⟨rfl, rfl⟩ := hst
          simp [DominoRun.status, hrun, h1, h2]
        · by_cases h3 : py_lower (poll rid) = "preparing" ∨
              py_lower (poll rid) = "running" ∨
              py_lower (poll rid) = "pending" ∨
              py_lower (poll rid) = "finishing"
          · simp only [h1, h2, h3, if_false, if_true, Except.ok.injEq,
              Prod.mk.injEq, if_neg, if_pos] at hst
            obtain ⟨rfl, rfl⟩ := hst
            simp [DominoRun.status, hrun, h1, h2, h3]
          · simp only [h1, h2, h3, if_neg, if_false] at hst
            cases hst
  · intro t
    rfl

/-- Witness for C7 (amended): an unsubmitted run's `status()` is a pure
read, and a submitted in-progress run polled as `"running"` reaches a
fixpoint — the second call returns the same task and status. -/
theorem c7_witness :
    DominoRun.status (DominoRun.init "job_1" ["hello.py"] false 0 none none)
        (fun _ => "running") =
      .ok (DominoRun.init "job_1" ["hello.py"] false 0 none none,
           TStatus.unsubmitted) ∧
    DominoRun.status
        { task_id := "job_2", command := ["hello.py"], isDirect := false
          max_retries := 0, tier := none, title := none, run_id := some "r2"
          retries := 0, _status := TStatus.inprogress }
        (fun _ => "running") =
      .ok ({ task_id := "job_2", command := ["hello.py"], isDirect := false
             max_retries := 0, tier := none, title := none
             run_id := some "r2", retries := 0
             _status := TStatus.inprogress },
           TStatus.inprogress) :=
  ⟨c7_status_unchanged_only_when_unsubmitted.1
      (DominoRun.init "job_1" ["hello.py"] false 0 none none)
      (fun _ => "running") rfl,
   c7_status_unchanged_only_when_unsubmitted.2.1
      { task_id := "job_2", command := ["hello.py"], isDirect := false
        max_retries := 0, tier := none, title := none, run_id := some "r2"
        retries := 0, _status := TStatus.inprogress }
      (fun _ => "running")
      { task_id := "job_2", command := ["hello.py"], isDirect := false
        max_retries := 0, tier := none, title := none, run_id := some "r2"
        retries := 0, _status := TStatus.inprogress }
      TStatus.inprogress rfl⟩

/-- C9: when a model task has no `model_id`, a successful `submit()`
performs `model_publish` (a brand-new logical model) and captures the id
from the response; when `model_id` is already set, a successful
`submit()` performs `model_version_publish` on exactly that id and the
stored id is left untouched — so the captured id survives every retry
and is never overwritten once set. -/
theorem c9_model_id_captured_and_reused (t : DominoModel) (api : ModelApi) :
    (∀ mid, t.model_id = some mid →
      ∀ r, DominoModel.submit t api = .ok r →
        r.1.model_id = some mid ∧
        r.2 = ModelCall.model_version_publish mid) ∧
    (t.model_id = none →
      ∀ r, DominoModel.submit t api = .ok r →
        ∃ new_id, api.publish_response = .ok (some new_id) ∧
          r.1.model_id = some new_id ∧ r.2 = ModelCall.model_publish) := by
  constructor
  · intro mid hmid r hr
    simp only [DominoModel.submit, hmid] at hr
    cases hv : api.version_publish_response with
    | error e => rw [hv] at hr; cases hr
    | ok u =>
      rw [hv] at hr
      simp only [DominoModel.submit_tail, DominoModel.get_versions, hmid] at hr
      cases hvs : api.versions_response with
      | error e => rw [hvs] at hr; cases hr
      | ok l =>
        rw [hvs] at hr
        cases l with
        | nil => cases hr
        | cons v vs =>
          simp only [Except.ok.injEq] at hr
          rw [← hr]
          exact ⟨rfl, rfl⟩
  · intro hmid r hr
    simp only [DominoModel.submit, hmid] at hr
    cases hp : api.publish_response with
    | error e => rw [hp] at hr; cases hr
    | ok data_id =>
      rw [hp] at hr
      cases data_id with
      | none =>
        simp only [DominoModel.submit_tail, DominoModel.get_versions] at hr
        cases hr
      | some new_id =>
        simp only [DominoModel.submit_tail, DominoModel.get_versions] at hr
        cases hvs : api.versions_response with
        | error e => rw [hvs] at hr; cases hr
        | ok l =>
          rw [hvs] at hr
          cases l with
          | nil => cases hr
          | cons v vs =>
            simp only [Except.ok.injEq] at hr
            rw [← hr]
            exact ⟨new_id, rfl, rfl, rfl⟩

/-- Witness for C9 at concrete inputs: a task holding `model_id = m-1`
resubmits via `model_version_publish m-1` and keeps `m-1`; a task with
no id publishes a new model and captures the response id `m-9`. -/
theorem c9_witness :
    (∃ r, DominoModel.submit
        (DominoModel.init "model_1" "model.py" "return_hello" "Hello Model"
          "" (some "m-1") "env-1")
        { publish_response := .ok none, version_publish_response := .ok ()
          versions_response := .ok [some "v-2"] } = .ok r ∧
      r.1.model_id = some "m-1" ∧
      r.2 = ModelCall.model_version_publish "m-1") ∧
    (∃ r, DominoModel.submit
        (DominoModel.init "model_2" "model.py" "return_hello" "New Model"
          "" none "env-1")
        { publish_response := .ok (some "m-9")
          version_publish_response := .ok ()
          versions_response := .ok [some "v-1"] } = .ok r ∧
      ∃ new_id, r.1.model_id = some new_id ∧
        r.2 = ModelCall.model_publish) := by
  constructor
  · refine ⟨({ DominoModel.init "model_1" "model.py" "return_hello"
        "Hello Model" "" (some "m-1") "env-1" with
        version_id := some "v-2", _status := TStatus.inprogress },
      ModelCall.model_version_publish "m-1"), rfl, ?_⟩
    exact (c9_model_id_captured_and_reused
      (DominoModel.init "model_1" "model.py" "return_hello" "Hello Model"
        "" (some "m-1") "env-1")
      { publish_response := .ok none, version_publish_response := .ok ()
        versions_response := .ok [some "v-2"] }).1 "m-1" rfl _ rfl
  · refine ⟨({ DominoModel.init "model_2" "model.py" "return_hello"
        "New Model" "" none "env-1" with
        model_id := some "m-9", version_id := some "v-1"
        _status := TStatus.inprogress },
      ModelCall.model_publish), rfl, ?_⟩
    obtain ⟨new_id, _, hid, hcall⟩ :=
      (c9_model_id_captured_and_reused
        (DominoModel.init "model_2" "model.py" "return_hello" "New Model"
          "" none "env-1")
        { publish_response := .ok (some "m-9")
          version_publish_response := .ok ()
          versions_response := .ok [some "v-1"] }).2 rfl _ rfl
    exact ⟨new_id, hid, hcall⟩

/-- C10 (implicit behaviour confirmed): once a model task has been
submitted (`_status ≠ Unsubmitted`), a `status()` call that returns
normally can never yield `Failed` — the polled build status maps to
`Succeeded` only on `"complete"` and to `In-progress` on everything
else, including error states — so a model task whose build has failed
never joins the permanently-failed set via polling. -/
theorem c10_model_status_never_failed (t : DominoModel)
    (poll : String → String → String)
    (h : t._status ≠ TStatus.unsubmitted) :
    (∀ r, DominoModel.status t poll = .ok r →
      r.2 ≠ TStatus.failed ∧ r.1._status ≠ TStatus.failed ∧
      (r.2 = TStatus.succeeded ∨ r.2 = TStatus.inprogress)) ∧
    (∀ mid vid, t.model_id = some mid → t.version_id = some vid →
      py_lower (poll mid vid) ≠ "complete" →
      DominoModel.status t poll =
        .ok ({ t with _status := TStatus.inprogress },
             TStatus.inprogress)) := by
  constructor
  · intro r hr
    simp only [DominoModel.status, if_neg h] at hr
    cases hmid : t.model_id with
    | none => rw [hmid] at hr; cases hr
    | some mid =>
      rw [hmid] at hr
      cases hvid : t.version_id with
      | none => rw [hvid] at hr; cases hr
      | some vid =>
        rw [hvid] at hr
        by_cases hb : py_lower (poll mid vid) = "building"
        · simp only [hb, if_pos, if_true, Except.ok.injEq] at hr
          rw [← hr]
          exact ⟨by simp, by simp, Or.inr rfl⟩
        · by_cases hcp : py_lower (poll mid vid) = "complete"
          · simp only [hb, hcp, if_false, if_true, if_neg, if_pos,
              Except.ok.injEq] at hr
            rw [← hr]
            exact ⟨by simp, by simp, Or.inl rfl⟩
          · simp only [hb, hcp, if_false, if_neg, Except.ok.injEq] at hr
            rw [← hr]
            exact ⟨by simp, by simp, Or.inr rfl⟩
  · intro mid vid hmid hvid hnc
    simp only [DominoModel.status, if_neg h, hmid, hvid]
    by_cases hb : py_lower (poll mid vid) = "building"
    · simp [hb]
    · simp [hb, hnc]

/-- Witness for C10: a submitted model task whose build is polled as
`"Failed"` is reported `In-progress`, not `Failed`. -/
theorem c10_witness :
    DominoModel.status
      { task_id := "model_1", file_name := "model.py"
        function_name := "return_hello", model_name := "Hello Model"
        description := "", model_id := some "m-1"
        environment_id := "env-1", version_id := some "v-1"
        max_retries := 0, retries := 0, _status := TStatus.inprogress }
      (fun _ _ => "Failed") =
    .ok ({ task_id := "model_1", file_name := "model.py"
           function_name := "return_hello", model_name := "Hello Model"
           description := "", model_id := some "m-1"
           environment_id := "env-1", version_id := some "v-1"
           max_retries := 0, retries := 0
           _status := TStatus.inprogress },
         TStatus.inprogress) :=
  (c10_model_status_never_failed
    { task_id := "model_1", file_name := "model.py"
      function_name := "return_hello", model_name := "Hello Model"
      description := "", model_id := some "m-1"
      environment_id := "env-1", version_id := some "v-1"
      max_retries := 0, retries := 0, _status := TStatus.inprogress }
    (fun _ _ => "Failed") (by decide)).2 "m-1" "v-1" rfl rfl (by decide)
